import Mathlib

/-!
Verification of the injury-risk / session-planning rule engine of a
soccer-monitoring dashboard (`streamlit_app.py`).

The three pure pieces of logic are embedded over `ℚ` (the Python code works
with exact decimal literals and comparisons, so rational arithmetic is the
faithful real-valued semantics):

* `compute_injury_risk` — the additive risk engine with RTP multiplier and clamp;
* `session_plan` — the match-day-aware session planner;
* `drivers` / `shown_drivers` — the explainability flag list.
-/

/-- Embedding of `compute_injury_risk` (src/streamlit_app.py, lines 62–95).
The sequential `risk += ...` accumulation is rendered as a chain of `let`
rebindings, one per statement of the Python function. -/
def compute_injury_risk (acwr fatigue soreness hsr acc dec : ℚ)
    (congestion rtp : Bool) : ℚ :=
  let risk : ℚ := 0.0
  -- ACWR
  let risk := if acwr > 1.6 then risk + 0.40
    else if acwr > 1.3 then risk + 0.25
    else if acwr < 0.8 then risk + 0.10
    else risk
  -- Wellness
  let risk := risk + max 0 fatigue * 0.12
  let risk := risk + max 0 soreness * 0.15
  -- High-speed running
  let risk := if hsr > 1200 then risk + 0.20
    else if hsr > 800 then risk + 0.10
    else risk
  -- Acc / Dec
  let risk := if acc + dec > 140 then risk + 0.15
    else if acc + dec > 100 then risk + 0.08
    else risk
  -- Congestion & RTP
  let risk := if congestion then risk + 0.15 else risk
  let risk := if rtp then risk * 1.25 else risk
  min risk 1.0

/-- Embedding of `session_plan` (src/streamlit_app.py, lines 100–124).
`days_to_match` is an integer (the UI offers 0–6, but the function itself
accepts any `int`). The returned triple is (session type, load target, HSR
limit). -/
def session_plan (risk : ℚ) (rtp : Bool) (days_to_match : ℤ) :
    String × String × String :=
  if days_to_match = 0 then
    ("MATCH DAY", "Game Load", "Match Demands")
  else if rtp then
    ("Return-to-Play", "Low–Moderate", "< 60% HSR")
  else if days_to_match = 1 then
    ("MD-1 Activation", "Very Low", "< 50% HSR")
  else if days_to_match = 2 then
    if risk ≥ 0.55 then
      ("MD-2 Modified", "-30% Load", "< 60% HSR")
    else
      ("MD-2 Tactical", "Moderate", "< 75% HSR")
  -- MD-3+
  else if risk ≥ 0.75 then
    ("Recovery / Medical", "Very Low", "None")
  else if risk ≥ 0.55 then
    ("Modified Training", "-30%", "< 70% HSR")
  else if risk ≥ 0.35 then
    ("Normal Training", "Normal", "< 85% HSR")
  else
    ("Full Training", "Full", "No Limit")

/-- The four-tier risk table of the MD-3+ branch (src/streamlit_app.py,
lines 117–124), stated on its own so that theorems can say "the planner
falls through to the risk table". -/
def four_tier_plan (risk : ℚ) : String × String × String :=
  if risk ≥ 0.75 then
    ("Recovery / Medical", "Very Low", "None")
  else if risk ≥ 0.55 then
    ("Modified Training", "-30%", "< 70% HSR")
  else if risk ≥ 0.35 then
    ("Normal Training", "Normal", "< 85% HSR")
  else
    ("Full Training", "Full", "No Limit")

/-- Driver labels, in the declaration order of src/streamlit_app.py,
lines 202–212. -/
def acwrLabel : String := "📈 Acute workload spike (ACWR)"

def fatigueLabel : String := "😴 Elevated fatigue"

def sorenessLabel : String := "🦵 Increased muscle soreness"

def hsrLabel : String := "🏃 High-speed running exposure"

def neuroLabel : String := "⚡ High neuromuscular load"

def noFlagsLabel : String := "✅ No major injury risk flags detected"

/-- Embedding of the `drivers` list construction (src/streamlit_app.py,
lines 202–212): five independent `if cond: drivers.append(label)`
statements, rendered as a concatenation of conditional singletons. -/
def drivers (acwr fatigue soreness hsr acc dec : ℚ) : List String :=
  (if acwr > 1.3 then [acwrLabel] else []) ++
  (if fatigue > 1 then [fatigueLabel] else []) ++
  (if soreness > 1 then [sorenessLabel] else []) ++
  (if hsr > 800 then [hsrLabel] else []) ++
  (if acc + dec > 120 then [neuroLabel] else [])

/-- Embedding of the display step (src/streamlit_app.py, lines 214–218):
each collected driver is written in order; when the list is empty a single
"no flags" sentinel line is written instead. -/
def shown_drivers (acwr fatigue soreness hsr acc dec : ℚ) : List String :=
  let ds := drivers acwr fatigue soreness hsr acc dec
  if ds.isEmpty then [noFlagsLabel] else ds

/-- The ACWR tier contribution of the risk engine, on its own. -/
def acwr_points (a : ℚ) : ℚ :=
  if a > 1.6 then 0.40 else if a > 1.3 then 0.25 else if a < 0.8 then 0.10 else 0

/-- The high-speed-running tier contribution of the risk engine, on its own. -/
def hsr_points (h : ℚ) : ℚ :=
  if h > 1200 then 0.20 else if h > 800 then 0.10 else 0

/-- The acceleration+deceleration tier contribution of the risk engine,
as a function of the sum `acc + dec`. -/
def accdec_points (s : ℚ) : ℚ :=
  if s > 140 then 0.15 else if s > 100 then 0.08 else 0

/-- The full additive sum accumulated by the risk engine before the RTP
multiplier and the clamp. -/
def risk_sum (a f s h ac de : ℚ) (c : Bool) : ℚ :=
  acwr_points a + max 0 f * 0.12 + max 0 s * 0.15 +
    hsr_points h + accdec_points (ac + de) + (if c then 0.15 else 0)

set_option maxHeartbeats 1600000 in
lemma compute_injury_risk_eq (a f s h ac de : ℚ) (c r : Bool) :
    compute_injury_risk a f s h ac de c r =
      min (if r then risk_sum a f s h ac de c * 1.25
           else risk_sum a f s h ac de c) 1.0 := by
  simp only [compute_injury_risk, risk_sum, acwr_points, hsr_points, accdec_points]
  split_ifs <;> (congr 1; ring)

lemma compute_injury_risk_false (a f s h ac de : ℚ) (c : Bool) :
    compute_injury_risk a f s h ac de c false =
      min (risk_sum a f s h ac de c) 1 := by
  rw [compute_injury_risk_eq, show (1.0 : ℚ) = 1 from by norm_num, if_neg]
  simp

lemma compute_injury_risk_true (a f s h ac de : ℚ) (c : Bool) :
    compute_injury_risk a f s h ac de c true =
      min (risk_sum a f s h ac de c * 1.25) 1 := by
  rw [compute_injury_risk_eq, show (1.0 : ℚ) = 1 from by norm_num, if_pos rfl]

lemma acwr_points_nonneg (a : ℚ) : 0 ≤ acwr_points a := by
  unfold acwr_points; split_ifs <;> norm_num

lemma hsr_points_nonneg (h : ℚ) : 0 ≤ hsr_points h := by
  unfold hsr_points; split_ifs <;> norm_num

lemma accdec_points_nonneg (s : ℚ) : 0 ≤ accdec_points s := by
  unfold accdec_points; split_ifs <;> norm_num

lemma risk_sum_nonneg (a f s h ac de : ℚ) (c : Bool) :
    0 ≤ risk_sum a f s h ac de c := by
  unfold risk_sum
  have h1 := acwr_points_nonneg a
  have h2 := hsr_points_nonneg h
  have h3 := accdec_points_nonneg (ac + de)
  have h4 : (0 : ℚ) ≤ max 0 f := le_max_left 0 f
  have h5 : (0 : ℚ) ≤ max 0 s := le_max_left 0 s
  have h6 : (0 : ℚ) ≤ if c then 0.15 else 0 := by split_ifs <;> norm_num
  nlinarith

/-- C1: for every input, including negative and out-of-range numerics and
both boolean flags, the risk engine returns a value in [0, 1]: the result
is clamped above by 1 and stays nonnegative because every additive term is
nonnegative. -/
theorem c1_risk_in_unit_interval (a f s h ac de : ℚ) (c r : Bool) :
    0 ≤ compute_injury_risk a f s h ac de c r ∧
      compute_injury_risk a f s h ac de c r ≤ 1 := by
  rw [compute_injury_risk_eq, show (1.0 : ℚ) = 1 from by norm_num]
  refine ⟨le_min ?_ zero_le_one, min_le_right _ _⟩
  have h0 := risk_sum_nonneg a f s h ac de c
  split_ifs <;> nlinarith

/-- C2: for every input vector, running the risk engine with the
return-to-play flag set equals the unscaled result multiplied by 1.25 and
clamped at 1: the RTP multiplier is applied after all additive terms. -/
theorem c2_rtp_multiplier_after_sum (a f s h ac de : ℚ) (c : Bool) :
    compute_injury_risk a f s h ac de c true =
      min 1 (compute_injury_risk a f s h ac de c false * 1.25) := by
  rw [compute_injury_risk_true, compute_injury_risk_false]
  have h0 := risk_sum_nonneg a f s h ac de c
  rcases le_total (risk_sum a f s h ac de c) 1 with hle | hge
  · rw [min_eq_left hle, min_comm]
  · rw [min_eq_right hge, min_eq_right (by nlinarith), min_eq_left (by norm_num)]

/-- C7: the spec's two worked examples evaluate exactly as stated: the
first yields 0.40 (pure ACWR contribution), the second's additive sum is
1.29, the RTP multiplier lifts it to 1.6125, and the clamp returns 1. -/
theorem c7_worked_examples :
    compute_injury_risk 1.7 0 0 0 0 0 false false = 0.40 ∧
    compute_injury_risk 1.7 2.0 1.0 1300 80 80 true true = 1.0 := by
  constructor <;> norm_num [compute_injury_risk]

/-- C3: the planner's rules are evaluated in strict order: match day wins
over everything (also at risk 0.9 with RTP set), then RTP, then MD-1
(ignoring risk), then MD-2 split at risk 0.55 (so risk 0.9 two days out
gives "MD-2 Modified", not "Recovery / Medical"). -/
theorem c3_planner_precedence :
    (∀ (r : ℚ) (b : Bool), (session_plan r b 0).1 = "MATCH DAY") ∧
    (∀ (r : ℚ) (d : ℤ), d ≠ 0 → (session_plan r true d).1 = "Return-to-Play") ∧
    (∀ r : ℚ, (session_plan r false 1).1 = "MD-1 Activation") ∧
    (∀ r : ℚ, 0.55 ≤ r → (session_plan r false 2).1 = "MD-2 Modified") ∧
    (∀ r : ℚ, r < 0.55 → (session_plan r false 2).1 = "MD-2 Tactical") ∧
    (session_plan 0.9 true 0).1 = "MATCH DAY" ∧
    (session_plan 0.9 false 2).1 = "MD-2 Modified" := by
  refine ⟨?_, ?_, ?_, ?_, ?_, ?_, ?_⟩
  · intro r b; simp [session_plan]
  · intro r d hd; simp [session_plan, hd]
  · intro r; norm_num [session_plan]
  · intro r hr; simp [session_plan, hr]
  · intro r hr; simp [session_plan, not_le.mpr hr]
  · norm_num [session_plan]
  · norm_num [session_plan]

theorem c3_planner_precedence_witness :
    ((3 : ℤ) ≠ 0 ∧ (session_plan 0.2 true 3).1 = "Return-to-Play") ∧
    ((0.55 : ℚ) ≤ 0.6 ∧ (session_plan 0.6 false 2).1 = "MD-2 Modified") ∧
    ((0.5 : ℚ) < 0.55 ∧ (session_plan 0.5 false 2).1 = "MD-2 Tactical") :=
  ⟨⟨by decide, c3_planner_precedence.2.1 0.2 3 (by decide)⟩,
   ⟨by norm_num, c3_planner_precedence.2.2.2.1 0.6 (by norm_num)⟩,
   ⟨by norm_num, c3_planner_precedence.2.2.2.2.1 0.5 (by norm_num)⟩⟩

/-- C9: the planner is total over all integers: for every `days_to_match`
other than 0, 1 and 2 — including negatives and values above 6 — with the
RTP flag clear, it falls through to the four-tier risk table. -/
theorem c9_planner_total (r : ℚ) (d : ℤ) (h0 : d ≠ 0) (h1 : d ≠ 1)
    (h2 : d ≠ 2) : session_plan r false d = four_tier_plan r := by
  simp [session_plan, four_tier_plan, h0, h1, h2]

theorem c9_planner_total_witness :
    ((-3 : ℤ) ≠ 0 ∧ (-3 : ℤ) ≠ 1 ∧ (-3 : ℤ) ≠ 2 ∧
      session_plan 0.9 false (-3) = four_tier_plan 0.9) ∧
    ((7 : ℤ) ≠ 0 ∧ (7 : ℤ) ≠ 1 ∧ (7 : ℤ) ≠ 2 ∧
      session_plan 0.2 false 7 = four_tier_plan 0.2) :=
  ⟨⟨by decide, by decide, by decide,
      c9_planner_total 0.9 (-3) (by decide) (by decide) (by decide)⟩,
   ⟨by decide, by decide, by decide,
      c9_planner_total 0.2 7 (by decide) (by decide) (by decide)⟩⟩

/-- C4 counterexample: three days out at risk 0.6 the planner's HSR-limit
string is "< 70% HSR", not the claimed "< 70%". -/
theorem c4_counterexample :
    session_plan 0.6 false 3 ≠ ("Modified Training", "-30%", "< 70%") := by
  norm_num [session_plan]
  decide

/-- C4 (amended): for `days_to_match ≥ 3` with RTP clear the planner
branches on the risk score against descending thresholds into exactly the
four tiers, whose HSR-limit strings carry an " HSR" suffix in the middle
tiers: "< 70% HSR" and "< 85% HSR". -/
theorem c4_md3_four_tiers (r : ℚ) (d : ℤ) (hd : 3 ≤ d) :
    (0.75 ≤ r → session_plan r false d = ("Recovery / Medical", "Very Low", "None")) ∧
    (0.55 ≤ r → r < 0.75 →
      session_plan r false d = ("Modified Training", "-30%", "< 70% HSR")) ∧
    (0.35 ≤ r → r < 0.55 →
      session_plan r false d = ("Normal Training", "Normal", "< 85% HSR")) ∧
    (r < 0.35 → session_plan r false d = ("Full Training", "Full", "No Limit")) := by
  have h0 : d ≠ 0 := by omega
  have h1 : d ≠ 1 := by omega
  have h2 : d ≠ 2 := by omega
  refine ⟨?_, ?_, ?_, ?_⟩
  · intro hr; simp [session_plan, h0, h1, h2, hr]
  · intro hr hr'; simp [session_plan, h0, h1, h2, hr, not_le.mpr hr']
  · intro hr hr'
    simp [session_plan, h0, h1, h2, hr, not_le.mpr hr',
      not_le.mpr (by linarith : r < 0.75)]
  · intro hr
    simp [session_plan, h0, h1, h2, not_le.mpr hr,
      not_le.mpr (by linarith : r < 0.55), not_le.mpr (by linarith : r < 0.75)]

theorem c4_md3_four_tiers_witness :
    ((3 : ℤ) ≤ 4 ∧ (0.75 : ℚ) ≤ 0.8 ∧
      session_plan 0.8 false 4 = ("Recovery / Medical", "Very Low", "None")) ∧
    ((0.55 : ℚ) ≤ 0.6 ∧ (0.6 : ℚ) < 0.75 ∧
      session_plan 0.6 false 4 = ("Modified Training", "-30%", "< 70% HSR")) ∧
    ((0.35 : ℚ) ≤ 0.4 ∧ (0.4 : ℚ) < 0.55 ∧
      session_plan 0.4 false 4 = ("Normal Training", "Normal", "< 85% HSR")) ∧
    ((0.1 : ℚ) < 0.35 ∧
      session_plan 0.1 false 4 = ("Full Training", "Full", "No Limit")) :=
  ⟨⟨by decide, by norm_num,
      (c4_md3_four_tiers 0.8 4 (by decide)).1 (by norm_num)⟩,
   ⟨by norm_num, by norm_num,
      (c4_md3_four_tiers 0.6 4 (by decide)).2.1 (by norm_num) (by norm_num)⟩,
   ⟨by norm_num, by norm_num,
      (c4_md3_four_tiers 0.4 4 (by decide)).2.2.1 (by norm_num) (by norm_num)⟩,
   ⟨by norm_num,
      (c4_md3_four_tiers 0.1 4 (by decide)).2.2.2 (by norm_num)⟩⟩

lemma acwr_points_mono (a a' : ℚ) (h08 : 0.8 ≤ a) (hle : a ≤ a') :
    acwr_points a ≤ acwr_points a' := by
  unfold acwr_points; split_ifs <;> linarith

lemma hsr_points_mono (h h' : ℚ) (hle : h ≤ h') :
    hsr_points h ≤ hsr_points h' := by
  unfold hsr_points; split_ifs <;> linarith

lemma accdec_points_mono (s s' : ℚ) (hle : s ≤ s') :
    accdec_points s ≤ accdec_points s' := by
  unfold accdec_points; split_ifs <;> linarith

lemma compute_mono_of_sum_le (a f s h ac de a' f' s' h' ac' de' : ℚ)
    (c c' r : Bool)
    (hle : risk_sum a f s h ac de c ≤ risk_sum a' f' s' h' ac' de' c') :
    compute_injury_risk a f s h ac de c r ≤
      compute_injury_risk a' f' s' h' ac' de' c' r := by
  cases r
  · rw [compute_injury_risk_false, compute_injury_risk_false]
    exact min_le_min hle le_rfl
  · rw [compute_injury_risk_true, compute_injury_risk_true]
    exact min_le_min (by nlinarith) le_rfl

lemma risk_sum_mono_fatigue (a f f' s h ac de : ℚ) (c : Bool) (hf : f ≤ f') :
    risk_sum a f s h ac de c ≤ risk_sum a f' s h ac de c := by
  unfold risk_sum
  have := max_le_max (le_refl (0 : ℚ)) hf
  linarith

lemma risk_sum_mono_soreness (a f s s' h ac de : ℚ) (c : Bool) (hs : s ≤ s') :
    risk_sum a f s h ac de c ≤ risk_sum a f s' h ac de c := by
  unfold risk_sum
  have := max_le_max (le_refl (0 : ℚ)) hs
  linarith

/-- C5: the risk engine is monotonically non-decreasing in each input
individually: in fatigue, soreness, high-speed distance, the
acceleration+deceleration sum, the congestion flag, and in ACWR over the
no-underload region (acwr ≥ 0.8, the "acwr excess" direction). -/
theorem c5_monotonicity :
    (∀ (a f f' s h ac de : ℚ) (c r : Bool), f ≤ f' →
      compute_injury_risk a f s h ac de c r ≤
        compute_injury_risk a f' s h ac de c r) ∧
    (∀ (a f s s' h ac de : ℚ) (c r : Bool), s ≤ s' →
      compute_injury_risk a f s h ac de c r ≤
        compute_injury_risk a f s' h ac de c r) ∧
    (∀ (a f s h h' ac de : ℚ) (c r : Bool), h ≤ h' →
      compute_injury_risk a f s h ac de c r ≤
        compute_injury_risk a f s h' ac de c r) ∧
    (∀ (a f s h ac de ac' de' : ℚ) (c r : Bool), ac + de ≤ ac' + de' →
      compute_injury_risk a f s h ac de c r ≤
        compute_injury_risk a f s h ac' de' c r) ∧
    (∀ (a f s h ac de : ℚ) (r : Bool),
      compute_injury_risk a f s h ac de false r ≤
        compute_injury_risk a f s h ac de true r) ∧
    (∀ (a a' f s h ac de : ℚ) (c r : Bool), 0.8 ≤ a → a ≤ a' →
      compute_injury_risk a f s h ac de c r ≤
        compute_injury_risk a' f s h ac de c r) := by
  refine ⟨?_, ?_, ?_, ?_, ?_, ?_⟩
  · intro a f f' s h ac de c r hf
    exact compute_mono_of_sum_le _ _ _ _ _ _ _ _ _ _ _ _ _ _ _
      (risk_sum_mono_fatigue a f f' s h ac de c hf)
  · intro a f s s' h ac de c r hs
    exact compute_mono_of_sum_le _ _ _ _ _ _ _ _ _ _ _ _ _ _ _
      (risk_sum_mono_soreness a f s s' h ac de c hs)
  · intro a f s h h' ac de c r hh
    refine compute_mono_of_sum_le _ _ _ _ _ _ _ _ _ _ _ _ _ _ _ ?_
    unfold risk_sum
    have := hsr_points_mono h h' hh
    linarith
  · intro a f s h ac de ac' de' c r had
    refine compute_mono_of_sum_le _ _ _ _ _ _ _ _ _ _ _ _ _ _ _ ?_
    unfold risk_sum
    have := accdec_points_mono (ac + de) (ac' + de') had
    linarith
  · intro a f s h ac de r
    refine compute_mono_of_sum_le _ _ _ _ _ _ _ _ _ _ _ _ _ _ _ ?_
    unfold risk_sum
    norm_num
  · intro a a' f s h ac de c r h08 hle
    refine compute_mono_of_sum_le _ _ _ _ _ _ _ _ _ _ _ _ _ _ _ ?_
    unfold risk_sum
    have := acwr_points_mono a a' h08 hle
    linarith

theorem c5_monotonicity_witness :
    ((0 : ℚ) ≤ 1 ∧ compute_injury_risk 1 0 0 0 0 0 false false ≤
      compute_injury_risk 1 1 0 0 0 0 false false) ∧
    ((0 : ℚ) ≤ 2 ∧ compute_injury_risk 1 0 0 0 0 0 false false ≤
      compute_injury_risk 1 0 2 0 0 0 false false) ∧
    ((500 : ℚ) ≤ 900 ∧ compute_injury_risk 1 0 0 500 0 0 false false ≤
      compute_injury_risk 1 0 0 900 0 0 false false) ∧
    ((50 : ℚ) + 40 ≤ 80 + 70 ∧ compute_injury_risk 1 0 0 0 50 40 false false ≤
      compute_injury_risk 1 0 0 0 80 70 false false) ∧
    (compute_injury_risk 1 0 0 0 0 0 false true ≤
      compute_injury_risk 1 0 0 0 0 0 true true) ∧
    ((0.8 : ℚ) ≤ 1.2 ∧ (1.2 : ℚ) ≤ 1.7 ∧
      compute_injury_risk 1.2 0 0 0 0 0 false false ≤
        compute_injury_risk 1.7 0 0 0 0 0 false false) :=
  ⟨⟨by norm_num, c5_monotonicity.1 1 0 1 0 0 0 0 false false (by norm_num)⟩,
   ⟨by norm_num, c5_monotonicity.2.1 1 0 0 2 0 0 0 false false (by norm_num)⟩,
   ⟨by norm_num, c5_monotonicity.2.2.1 1 0 0 500 900 0 0 false false (by norm_num)⟩,
   ⟨by norm_num, c5_monotonicity.2.2.2.1 1 0 0 0 50 40 80 70 false false (by norm_num)⟩,
   c5_monotonicity.2.2.2.2.1 1 0 0 0 0 0 true,
   ⟨by norm_num, by norm_num,
      c5_monotonicity.2.2.2.2.2 1.2 1.7 0 0 0 0 0 false false (by norm_num) (by norm_num)⟩⟩

/-- C6: the four ACWR contribution tiers partition the rationals — for
every acwr exactly one of (> 1.6), (1.3, 1.6], (< 0.8), [0.8, 1.3] holds —
and at acwr = 1.6 exactly the engine adds the +0.25 contribution of the
`> 1.3` tier, not +0.40. -/
theorem c6_acwr_tier_partition :
    (∀ a : ℚ,
      (a > 1.6 ∧ ¬(1.3 < a ∧ a ≤ 1.6) ∧ ¬(a < 0.8) ∧ ¬(0.8 ≤ a ∧ a ≤ 1.3)) ∨
      (¬(a > 1.6) ∧ (1.3 < a ∧ a ≤ 1.6) ∧ ¬(a < 0.8) ∧ ¬(0.8 ≤ a ∧ a ≤ 1.3)) ∨
      (¬(a > 1.6) ∧ ¬(1.3 < a ∧ a ≤ 1.6) ∧ a < 0.8 ∧ ¬(0.8 ≤ a ∧ a ≤ 1.3)) ∨
      (¬(a > 1.6) ∧ ¬(1.3 < a ∧ a ≤ 1.6) ∧ ¬(a < 0.8) ∧ (0.8 ≤ a ∧ a ≤ 1.3))) ∧
    compute_injury_risk 1.6 0 0 0 0 0 false false = 0.25 := by
  constructor
  · intro a
    rcases lt_or_le (1.6 : ℚ) a with h1 | h1
    · refine Or.inl ⟨h1, ?_, ?_, ?_⟩
      · rintro ⟨-, hx⟩; linarith
      · intro hx; linarith
      · rintro ⟨-, hx⟩; linarith
    · rcases lt_or_le (1.3 : ℚ) a with h2 | h2
      · refine Or.inr (Or.inl ⟨by linarith, ⟨h2, h1⟩, by linarith, ?_⟩)
        rintro ⟨-, hx⟩; linarith
      · rcases lt_or_le a (0.8 : ℚ) with h3 | h3
        · refine Or.inr (Or.inr (Or.inl ⟨by linarith, ?_, h3, ?_⟩))
          · rintro ⟨hx, -⟩; linarith
          · rintro ⟨hx, -⟩; linarith
        · refine Or.inr (Or.inr (Or.inr ⟨by linarith, ?_, by linarith,
            h3, h2⟩))
          rintro ⟨hx, -⟩; linarith
  · norm_num [compute_injury_risk]

lemma mem_drivers (l : String) (a f s h ac de : ℚ) :
    l ∈ drivers a f s h ac de ↔
      (l = acwrLabel ∧ a > 1.3) ∨ (l = fatigueLabel ∧ f > 1) ∨
      (l = sorenessLabel ∧ s > 1) ∨ (l = hsrLabel ∧ h > 800) ∨
      (l = neuroLabel ∧ ac + de > 120) := by
  unfold drivers
  split_ifs <;> simp [*]

/-- C8: the explainability list checks five independent flags; every
produced list is a sublist of the five labels in declaration order (so
matching labels appear in that fixed order — in particular soreness before
high-speed whenever both fire), each label appears exactly when its flag
holds, and when no flag holds a single "no flags" sentinel is shown. -/
theorem c8_drivers_order_and_flags :
    (∀ a f s h ac de : ℚ,
      (drivers a f s h ac de).Sublist
        [acwrLabel, fatigueLabel, sorenessLabel, hsrLabel, neuroLabel]) ∧
    (∀ a f s h ac de : ℚ,
      (acwrLabel ∈ drivers a f s h ac de ↔ a > 1.3) ∧
      (fatigueLabel ∈ drivers a f s h ac de ↔ f > 1) ∧
      (sorenessLabel ∈ drivers a f s h ac de ↔ s > 1) ∧
      (hsrLabel ∈ drivers a f s h ac de ↔ h > 800) ∧
      (neuroLabel ∈ drivers a f s h ac de ↔ ac + de > 120)) ∧
    (∀ a f s h ac de : ℚ, ¬a > 1.3 → ¬f > 1 → ¬s > 1 → ¬h > 800 →
      ¬ac + de > 120 → shown_drivers a f s h ac de = [noFlagsLabel]) ∧
    (∀ a f s h ac de : ℚ, s > 1 → h > 800 →
      ∃ pre mid post, drivers a f s h ac de =
        pre ++ sorenessLabel :: (mid ++ hsrLabel :: post)) := by
  refine ⟨?_, ?_, ?_, ?_⟩
  · intro a f s h ac de
    unfold drivers
    split_ifs <;> decide
  · intro a f s h ac de
    refine ⟨?_, ?_, ?_, ?_, ?_⟩ <;>
      (rw [mem_drivers];
       simp [acwrLabel, fatigueLabel, sorenessLabel, hsrLabel, neuroLabel])
  · intro a f s h ac de h1 h2 h3 h4 h5
    simp [shown_drivers, drivers, h1, h2, h3, h4, h5]
  · intro a f s h ac de hs hh
    simp only [drivers, if_pos hs, if_pos hh]
    split_ifs with h1 h2 h5
    · exact ⟨[acwrLabel, fatigueLabel], [], [neuroLabel], by simp⟩
    · exact ⟨[acwrLabel, fatigueLabel], [], [], by simp⟩
    · exact ⟨[acwrLabel], [], [neuroLabel], by simp⟩
    · exact ⟨[acwrLabel], [], [], by simp⟩
    · exact ⟨[fatigueLabel], [], [neuroLabel], by simp⟩
    · exact ⟨[fatigueLabel], [], [], by simp⟩
    · exact ⟨[], [], [neuroLabel], by simp⟩
    · exact ⟨[], [], [], by simp⟩

theorem c8_drivers_order_and_flags_witness :
    (acwrLabel ∈ drivers 1.4 0 0 0 0 0 ↔ (1.4 : ℚ) > 1.3) ∧
    (¬(0.5 : ℚ) > 1.3 ∧ ¬(0 : ℚ) > 1 ∧ ¬(700 : ℚ) > 800 ∧
      ¬(30 : ℚ) + 40 > 120 ∧ shown_drivers 0.5 0 0 700 30 40 = [noFlagsLabel]) ∧
    ((2 : ℚ) > 1 ∧ (900 : ℚ) > 800 ∧
      ∃ pre mid post, drivers 0.5 0 2 900 30 40 =
        pre ++ sorenessLabel :: (mid ++ hsrLabel :: post)) :=
  ⟨(c8_drivers_order_and_flags.2.1 1.4 0 0 0 0 0).1,
   ⟨by norm_num, by norm_num, by norm_num, by norm_num,
     c8_drivers_order_and_flags.2.2.1 0.5 0 0 700 30 40 (by norm_num)
       (by norm_num) (by norm_num) (by norm_num) (by norm_num)⟩,
   ⟨by norm_num, by norm_num,
     c8_drivers_order_and_flags.2.2.2 0.5 0 2 900 30 40 (by norm_num)
       (by norm_num)⟩⟩

/-- C10 counterexample: at acwr = 1.5 — inside the claim's [0.8, 1.6]
zero-contribution window — with every other input at its floor, the engine
returns 0.25 (and 0.3125 with RTP set), not 0. -/
theorem c10_counterexample :
    compute_injury_risk 1.5 0 0 0 0 0 false false ≠ 0 ∧
    compute_injury_risk 1.5 0 0 0 0 0 false true ≠ 0 := by
  constructor <;> norm_num [compute_injury_risk]

/-- C10 (amended): when every additive contribution is zero — acwr in
[0.8, 1.3] (not [0.8, 1.6]: above 1.3 the engine adds 0.25), fatigue and
soreness non-positive, hsr ≤ 800, acc + dec ≤ 100, congestion clear — the
engine returns exactly 0 whether or not the RTP flag is set: the RTP
adjustment is a multiplier, not an additive term. -/
theorem c10_rtp_alone_no_risk (a f s h ac de : ℚ) (r : Bool)
    (ha : 0.8 ≤ a) (ha' : a ≤ 1.3) (hf : f ≤ 0) (hs : s ≤ 0)
    (hh : h ≤ 800) (had : ac + de ≤ 100) :
    compute_injury_risk a f s h ac de false r = 0 := by
  have hsum : risk_sum a f s h ac de false = 0 := by
    unfold risk_sum acwr_points hsr_points accdec_points
    rw [if_neg (by linarith : ¬a > 1.6), if_neg (by linarith : ¬a > 1.3),
      if_neg (by linarith : ¬a < 0.8), if_neg (by linarith : ¬h > 1200),
      if_neg (by linarith : ¬h > 800), if_neg (by linarith : ¬ac + de > 140),
      if_neg (by linarith : ¬ac + de > 100), max_eq_left hf, max_eq_left hs]
    norm_num
  cases r
  · rw [compute_injury_risk_false, hsum]; norm_num
  · rw [compute_injury_risk_true, hsum]; norm_num

theorem c10_rtp_alone_no_risk_witness :
    ((0.8 : ℚ) ≤ 1 ∧ (1 : ℚ) ≤ 1.3 ∧ (0 : ℚ) ≤ 0 ∧ (600 : ℚ) ≤ 800 ∧
      (40 : ℚ) + 50 ≤ 100) ∧
    compute_injury_risk 1 0 0 600 40 50 false true = 0 ∧
    compute_injury_risk 1 0 0 600 40 50 false false = 0 :=
  ⟨⟨by norm_num, by norm_num, le_rfl, by norm_num, by norm_num⟩,
   c10_rtp_alone_no_risk 1 0 0 600 40 50 true (by norm_num) (by norm_num)
     le_rfl le_rfl (by norm_num) (by norm_num),
   c10_rtp_alone_no_risk 1 0 0 600 40 50 false (by norm_num) (by norm_num)
     le_rfl le_rfl (by norm_num) (by norm_num)⟩
